import Mathlib

/-!
Shallow embedding of the vide window and event core (src/vide/src/window.rs
and src/vide/src/events.rs): the event translator state and operations, the
raw event routing of the frame loop, the redraw scheduler contract and the
frame pacing rule. Machine integers u32 and i32 are modelled as Nat and Int;
the coordinates involved never approach the wrap boundary in any statement
here. The pixel to logical conversion and the keybinding encoder go through
external collaborators (the sdl scale factor, keyboard.rs) and are taken as
parameters.
-/

/-- Scroll directions, from events.rs. -/
inductive Direction : Type
  | Up
  | Right
  | Down
  | Left
  deriving DecidableEq, Repr

/-- Canonical UI events delivered to the event sink, from events.rs
(UiEvent). Coordinates are logical units. -/
inductive UiEvent : Type
  | Quit
  | KeyboardInput (token : String)
  | MouseDragged (x y : Nat)
  | MousePressed (x y : Nat)
  | MouseReleased (x y : Nat)
  | Scroll (d : Direction) (x y : Nat)
  | FocusLost
  | FocusGained
  deriving DecidableEq, Repr

/-- Logical width and height pair (skulpin LogicalSize with u32 fields). -/
structure LogicalSize : Type where
  width : Nat
  height : Nat
  deriving DecidableEq, Repr

/-- The mutable fields of WindowWrapper (window.rs lines 29 to 42) that the
translator operations read or write. External handles (the sdl context, the
window handle, the renderer) stay outside; the f32 transparency field is
never touched by any operation modelled here and is left out (floating
point). -/
structure WindowState : Type where
  mouse_down : Bool
  mouse_position : LogicalSize
  title : String
  previous_size : LogicalSize
  fullscreen : Bool
  cached_size : Nat × Nat
  cached_position : Int × Int
  deriving DecidableEq, Repr

/-- Modelled from the spec: redraw_scheduler.rs is declared in lib.rs but is
not among the repository files under src. Per the spec the scheduler state
is a single pending flag and queue_next_frame sets it to true, idempotent OR
semantics, safe to call any number of times. -/
def queue_next_frame (_pending : Bool) : Bool := true

/-- Modelled from the spec: redraw_scheduler.rs is not among the repository
files under src. Per the spec should_draw reads and clears the pending flag
atomically, returning its prior value; the result pair is (returned value,
new flag). -/
def should_draw (pending : Bool) : Bool × Bool := (pending, false)

/-- WindowWrapper.handle_quit (window.rs 156 to 158): forwards UiEvent.Quit
to the sink and nothing else; the state is untouched and the process is not
terminated here. -/
def handle_quit (w : WindowState) : WindowState × List UiEvent :=
  (w, [UiEvent.Quit])

/-- WindowWrapper.handle_keyboard_input (window.rs 160 to 175). The encoder
produce_keybinding_string lives in keyboard.rs, which is not among the files
under src, and the modifier state comes from the platform; both are folded
into the parameter encode. -/
def handle_keyboard_input (encode : Option Nat → Option String → Option String)
    (w : WindowState) (keycode : Option Nat) (text : Option String) :
    WindowState × List UiEvent :=
  match encode keycode text with
  | some token => (w, [UiEvent.KeyboardInput token])
  | none => (w, [])

/-- WindowWrapper.handle_pointer_motion (window.rs 177 to 194). The pixel to
logical conversion goes through the fixed cell metric and the platform scale
factor; it is abstracted as the parameter convert applied to the raw device
coordinates. The stored mouse position is updated first, then the drag event
is emitted when the mouse is down and the position changed. -/
def handle_pointer_motion (convert : Int → Int → LogicalSize)
    (w : WindowState) (x y : Int) : WindowState × List UiEvent :=
  let previous_position := w.mouse_position
  let new_position := convert x y
  let w2 := { w with mouse_position := new_position }
  if w.mouse_down = true ∧ previous_position ≠ new_position then
    (w2, [UiEvent.MouseDragged new_position.width new_position.height])
  else
    (w2, [])

/-- WindowWrapper.handle_pointer_down (window.rs 196 to 202). -/
def handle_pointer_down (w : WindowState) : WindowState × List UiEvent :=
  ({ w with mouse_down := true },
   [UiEvent.MousePressed w.mouse_position.width w.mouse_position.height])

/-- WindowWrapper.handle_pointer_up (window.rs 204 to 210). -/
def handle_pointer_up (w : WindowState) : WindowState × List UiEvent :=
  ({ w with mouse_down := false },
   [UiEvent.MouseReleased w.mouse_position.width w.mouse_position.height])

/-- WindowWrapper.handle_mouse_wheel (window.rs 212 to 244): the vertical
axis is evaluated first, then the horizontal one, each emitting at most one
Scroll at the current mouse position. -/
def handle_mouse_wheel (w : WindowState) (x y : Int) : WindowState × List UiEvent :=
  let vertical_direction :=
    if 0 < y then some Direction.Up
    else if y < 0 then some Direction.Down
    else none
  let vertical_events :=
    match vertical_direction with
    | some d => [UiEvent.Scroll d w.mouse_position.width w.mouse_position.height]
    | none => []
  let horizontal_direction :=
    if 0 < x then some Direction.Right
    else if x < 0 then some Direction.Left
    else none
  let horizontal_events :=
    match horizontal_direction with
    | some d => [UiEvent.Scroll d w.mouse_position.width w.mouse_position.height]
    | none => []
  (w, vertical_events ++ horizontal_events)

/-- WindowWrapper.handle_focus_lost (window.rs 246 to 248). -/
def handle_focus_lost (w : WindowState) : WindowState × List UiEvent :=
  (w, [UiEvent.FocusLost])

/-- WindowWrapper.handle_focus_gained (window.rs 250 to 253): emits
FocusGained and queues a redraw on the process wide scheduler; the result is
(state, new scheduler flag, emitted events). -/
def handle_focus_gained (w : WindowState) (pending : Bool) :
    WindowState × Bool × List UiEvent :=
  (w, queue_next_frame pending, [UiEvent.FocusGained])

/-- The platform window geometry that toggle_fullscreen reads and writes
through sdl calls: current size and position. -/
structure PlatformWindow : Type where
  size : Nat × Nat
  position : Int × Int
  deriving DecidableEq, Repr

/-- Outcomes of the platform calls toggle_fullscreen makes: whether the
set_fullscreen mode change succeeds, whether set_size succeeds, and the
geometry the window takes when desktop fullscreen mode is entered
successfully. -/
structure PlatformBehavior : Type where
  setFullscreenOk : Bool
  setSizeOk : Bool
  desktopGeometry : PlatformWindow
  deriving DecidableEq, Repr

/-- WindowWrapper.toggle_fullscreen (window.rs 104 to 154), as compiled for a
non Windows target (the cfg target_os windows branches are compiled out).
Exiting fullscreen: set_fullscreen(Off).ok() discards any failure, then
set_size(cached).unwrap() panics when the call fails, modelled as none, then
set_position(cached) runs (infallible). Entering: the current geometry is
cached, then set_fullscreen(Desktop).ok() discards any failure; on success
the window takes the desktop geometry, on failure the geometry is left
unchanged. In both surviving branches the fullscreen flag flips at the
end. -/
def toggle_fullscreen (pb : PlatformBehavior) (w : WindowState)
    (win : PlatformWindow) : Option (WindowState × PlatformWindow) :=
  if w.fullscreen then
    if pb.setSizeOk then
      some ({ w with fullscreen := !w.fullscreen },
            { size := w.cached_size, position := w.cached_position })
    else
      none
  else
    let w1 := { w with cached_size := win.size, cached_position := win.position }
    let win1 := if pb.setFullscreenOk then pb.desktopGeometry else win
    some ({ w1 with fullscreen := !w1.fullscreen }, win1)

/-- Raw sdl events as classified by the match in ui_loop (window.rs 290 to
318): one constructor per arm of the match. -/
inductive RawEvent : Type
  | Quit
  | KeyDown (keycode : Option Nat)
  | TextInput (text : String)
  | MouseMotion (x y : Int)
  | MouseButtonDown
  | MouseButtonUp
  | MouseWheel (x y : Int)
  | WindowFocusLost
  | WindowFocusGained
  | WindowOther
  | Other
  deriving DecidableEq, Repr

/-- The per iteration mutable context of ui_loop: the window state, the
scheduler flag, the buffered keycode and text, and the suppress text guard
ignore_text_this_frame. -/
structure IterState : Type where
  win : WindowState
  sched : Bool
  keycode : Option Nat
  keytext : Option String
  ignore_text : Bool
  deriving DecidableEq, Repr

/-- One arm of the event match of ui_loop (window.rs 291 to 317): routes a
raw event, returning the updated context and the events the sink received
during that arm. -/
def route_event (convert : Int → Int → LogicalSize) (st : IterState) :
    RawEvent → IterState × List UiEvent
  | RawEvent.Quit =>
    let r := handle_quit st.win
    ({ st with win := r.1 }, r.2)
  | RawEvent.KeyDown kc => ({ st with keycode := kc }, [])
  | RawEvent.TextInput t => ({ st with keytext := some t }, [])
  | RawEvent.MouseMotion x y =>
    let r := handle_pointer_motion convert st.win x y
    ({ st with win := r.1 }, r.2)
  | RawEvent.MouseButtonDown =>
    let r := handle_pointer_down st.win
    ({ st with win := r.1 }, r.2)
  | RawEvent.MouseButtonUp =>
    let r := handle_pointer_up st.win
    ({ st with win := r.1 }, r.2)
  | RawEvent.MouseWheel x y =>
    let r := handle_mouse_wheel st.win x y
    ({ st with win := r.1 }, r.2)
  | RawEvent.WindowFocusLost =>
    let r := handle_focus_lost st.win
    ({ st with win := r.1 }, r.2)
  | RawEvent.WindowFocusGained =>
    let r := handle_focus_gained st.win st.sched
    ({ st with win := r.1, sched := r.2.1, ignore_text := true }, r.2.2)
  | RawEvent.WindowOther => ({ st with sched := queue_next_frame st.sched }, [])
  | RawEvent.Other => (st, [])

/-- The event drain of one ui_loop iteration (window.rs 290 to 318): raw
events are routed strictly in order; the sink deliveries are concatenated in
that same order. The loop has no early exit: every event of the batch is
routed. -/
def process_batch (convert : Int → Int → LogicalSize) (st : IterState) :
    List RawEvent → IterState × List UiEvent
  | [] => (st, [])
  | e :: rest =>
    let r1 := route_event convert st e
    let r2 := process_batch convert r1.1 rest
    (r2.1, r1.2 ++ r2.2)

/-- Whether a raw event is the FocusGained window event, the only arm that
sets the suppress text guard. -/
def is_focus_gained : RawEvent → Bool
  | RawEvent.WindowFocusGained => true
  | _ => false

/-- One iteration of ui_loop up to the draw step (window.rs 283 to 322):
fresh buffers and a cleared guard, drain the batch, then dispatch the
buffered keycode and text through handle_keyboard_input unless the guard was
set during the drain. The Bool of the result records whether
handle_keyboard_input was invoked this iteration. -/
def frame_iteration (convert : Int → Int → LogicalSize)
    (encode : Option Nat → Option String → Option String)
    (w : WindowState) (sched : Bool) (events : List RawEvent) :
    IterState × List UiEvent × Bool :=
  let st0 : IterState :=
    { win := w, sched := sched, keycode := none, keytext := none,
      ignore_text := false }
  let r := process_batch convert st0 events
  if r.1.ignore_text then
    (r.1, r.2, false)
  else
    let k := handle_keyboard_input encode r.1.win r.1.keycode r.1.keytext
    ({ r.1 with win := k.1 }, r.2 ++ k.2, true)

/-- The fixed target frame duration of ui_loop (window.rs 329), one 144th of
a second; durations are modelled as rational seconds. -/
def frame_length : ℚ := 1 / 144

/-- The end of iteration pacing of ui_loop (window.rs 328 to 333): sleep the
remainder when the elapsed time is under the target, otherwise do not sleep
at all. -/
def sleep_duration (elapsed : ℚ) : ℚ :=
  if elapsed < frame_length then frame_length - elapsed else 0

/-- The sleeps of successive iterations: each iteration records its own
frame start and computes its sleep from its own elapsed time only; the loop
carries no pacing state between iterations. -/
def pacing_schedule : List ℚ → List ℚ
  | [] => []
  | e :: rest => sleep_duration e :: pacing_schedule rest

/-- A call observed by the scheduler between two should_draw reads: a
queue_next_frame call or an unrelated no op. -/
inductive SchedulerCall : Type
  | queue
  | noop
  deriving DecidableEq, Repr

/-- Apply one scheduler call to the pending flag. -/
def apply_call (s : Bool) : SchedulerCall → Bool
  | SchedulerCall.queue => queue_next_frame s
  | SchedulerCall.noop => s

/-- Run a sequence of scheduler calls on the pending flag. -/
def run_calls (s : Bool) : List SchedulerCall → Bool
  | [] => s
  | c :: rest => run_calls (apply_call s c) rest

/-- A concrete window state: fresh, mouse up, everything at the origin. -/
def w0 : WindowState :=
  { mouse_down := false
    mouse_position := { width := 0, height := 0 }
    title := "Neovide"
    previous_size := { width := 0, height := 0 }
    fullscreen := false
    cached_size := (0, 0)
    cached_position := (0, 0) }

/-- A concrete pixel to logical conversion for concrete instances:
everything maps to the origin. -/
def convert0 (_x _y : Int) : LogicalSize := { width := 0, height := 0 }

/-- A concrete windowed geometry. -/
def win0 : PlatformWindow := { size := (300, 200), position := (7, 9) }

/-- A platform behavior where every call succeeds. -/
def pb_ok : PlatformBehavior :=
  { setFullscreenOk := true
    setSizeOk := true
    desktopGeometry := { size := (1920, 1080), position := (0, 0) } }

/-- A platform behavior where the set_size call fails. -/
def pb_size_fails : PlatformBehavior :=
  { setFullscreenOk := true
    setSizeOk := false
    desktopGeometry := { size := (1920, 1080), position := (0, 0) } }

/-- A platform behavior where the set_fullscreen mode call fails. -/
def pb_mode_fails : PlatformBehavior :=
  { setFullscreenOk := false
    setSizeOk := true
    desktopGeometry := { size := (1920, 1080), position := (0, 0) } }

/-- A window state currently in fullscreen with a cached windowed
geometry. -/
def w_fullscreen : WindowState :=
  { w0 with fullscreen := true, cached_size := (640, 480), cached_position := (10, 20) }

/- Helper lemmas. -/

/-- From a set flag, any sequence of scheduler calls keeps the flag set. -/
theorem run_calls_from_true (cs : List SchedulerCall) :
    run_calls true cs = true := by
  induction cs with
  | nil => rfl
  | cons c rest ih => cases c <;> simpa [run_calls, apply_call, queue_next_frame]

/-- A sequence holding a queue call leaves the flag set. -/
theorem run_calls_queue_mem (s : Bool) (cs : List SchedulerCall)
    (h : SchedulerCall.queue ∈ cs) : run_calls s cs = true := by
  induction cs generalizing s with
  | nil => cases h
  | cons c rest ih =>
    cases h with
    | head => simpa [run_calls, apply_call, queue_next_frame] using run_calls_from_true rest
    | tail _ hmem => cases c <;> simpa [run_calls, apply_call, queue_next_frame] using ih _ hmem

/-- A sequence without a queue call leaves the flag unchanged. -/
theorem run_calls_no_queue (s : Bool) (cs : List SchedulerCall)
    (h : SchedulerCall.queue ∉ cs) : run_calls s cs = s := by
  induction cs generalizing s with
  | nil => rfl
  | cons c rest ih =>
    cases c with
    | queue => exact absurd (List.mem_cons_self _ _) h
    | noop =>
      have : SchedulerCall.queue ∉ rest := fun hm => h (List.mem_cons_of_mem _ hm)
      simpa [run_calls, apply_call] using ih _ this

/-- The emitted list of handle_mouse_wheel, written as the concatenation of
the vertical contribution and the horizontal one. -/
theorem handle_mouse_wheel_spec (w : WindowState) (x y : Int) :
    (handle_mouse_wheel w x y).2 =
      (if 0 < y then
        [UiEvent.Scroll Direction.Up w.mouse_position.width w.mouse_position.height]
      else if y < 0 then
        [UiEvent.Scroll Direction.Down w.mouse_position.width w.mouse_position.height]
      else []) ++
      (if 0 < x then
        [UiEvent.Scroll Direction.Right w.mouse_position.width w.mouse_position.height]
      else if x < 0 then
        [UiEvent.Scroll Direction.Left w.mouse_position.width w.mouse_position.height]
      else []) := by
  by_cases hy : 0 < y <;> by_cases hy2 : y < 0 <;>
    by_cases hx : 0 < x <;> by_cases hx2 : x < 0 <;>
      simp [handle_mouse_wheel, hy, hy2, hx, hx2]

/-- Routing one event changes the suppress text guard exactly when the event
is the FocusGained window event. -/
theorem route_event_ignore (convert : Int → Int → LogicalSize)
    (st : IterState) (e : RawEvent) :
    (route_event convert st e).1.ignore_text =
      (st.ignore_text || is_focus_gained e) := by
  cases e <;> simp [route_event, is_focus_gained]

/-- After draining a batch the suppress text guard is set exactly when it
was already set or some event of the batch is the FocusGained window
event. -/
theorem process_batch_ignore (convert : Int → Int → LogicalSize)
    (st : IterState) (events : List RawEvent) :
    (process_batch convert st events).1.ignore_text =
      (st.ignore_text || events.any is_focus_gained) := by
  induction events generalizing st with
  | nil => simp [process_batch]
  | cons e rest ih =>
    simp [process_batch, ih, route_event_ignore, Bool.or_assoc]

/-- The is_focus_gained test holds exactly at the FocusGained window
event. -/
theorem is_focus_gained_iff (e : RawEvent) :
    is_focus_gained e = true ↔ e = RawEvent.WindowFocusGained := by
  cases e <;> simp [is_focus_gained]

/-- The keyboard dispatch flag of a frame iteration is the negation of the
drained suppress text guard. -/
theorem frame_iteration_flag (convert : Int → Int → LogicalSize)
    (encode : Option Nat → Option String → Option String)
    (w : WindowState) (sched : Bool) (events : List RawEvent) :
    (frame_iteration convert encode w sched events).2.2 =
      !((process_batch convert
          { win := w, sched := sched, keycode := none, keytext := none,
            ignore_text := false } events).1.ignore_text) := by
  cases hval : (process_batch convert
      { win := w, sched := sched, keycode := none, keytext := none,
        ignore_text := false } events).1.ignore_text with
  | false => simp [frame_iteration, hval]
  | true => simp [frame_iteration, hval]

/- Claim theorems. -/

/-- C1 counterexample: in a batch holding a Quit followed by a wheel event,
the code routes the wheel event to handle_mouse_wheel and delivers its
Scroll to the sink after handle_quit already ran, so dispatch of the batch
does not stop at the Quit: handle_quit only forwards UiEvent.Quit to the
sink and nothing in the loop terminates the process. -/
theorem quit_batch_counterexample :
    (process_batch convert0
        { win := w0, sched := false, keycode := none, keytext := none,
          ignore_text := false }
        [RawEvent.Quit, RawEvent.MouseWheel 0 5]).2 =
      [UiEvent.Quit, UiEvent.Scroll Direction.Up 0 0] ∧
    [UiEvent.Quit, UiEvent.Scroll Direction.Up 0 0] ≠ [UiEvent.Quit] :=
  ⟨by decide, by decide⟩

/-- C1 amended: a Quit raw event delivers UiEvent.Quit to the sink in batch
order and leaves the loop context unchanged; the remaining raw events of the
batch are then routed and delivered exactly as if no Quit had occurred.
Termination on Quit is left to the event sink, not performed by this
loop. -/
theorem quit_does_not_stop_batch (convert : Int → Int → LogicalSize)
    (st : IterState) (rest : List RawEvent) :
    process_batch convert st (RawEvent.Quit :: rest) =
      ((process_batch convert st rest).1,
       UiEvent.Quit :: (process_batch convert st rest).2) := rfl

/-- C2: any sequence of scheduler calls holding at least one
queue_next_frame coalesces: the next should_draw reads true and clears the
flag, and after any further calls none of which is a queue, should_draw
reads false; each read returns the prior flag while clearing it. -/
theorem redraw_coalescing (s : Bool) (cs cs2 : List SchedulerCall)
    (h : SchedulerCall.queue ∈ cs) (h2 : SchedulerCall.queue ∉ cs2) :
    should_draw (run_calls s cs) = (true, false) ∧
    should_draw (run_calls (should_draw (run_calls s cs)).2 cs2) =
      (false, false) := by
  rw [run_calls_queue_mem s cs h]
  refine ⟨rfl, ?_⟩
  show should_draw (run_calls false cs2) = (false, false)
  rw [run_calls_no_queue false cs2 h2]
  rfl

/-- C2 witness at a concrete call sequence: two queue calls around a no op,
then one no op after the consuming read. -/
theorem redraw_coalescing_witness :
    should_draw (run_calls false
        [SchedulerCall.queue, SchedulerCall.noop, SchedulerCall.queue]) =
      (true, false) ∧
    should_draw (run_calls
        (should_draw (run_calls false
          [SchedulerCall.queue, SchedulerCall.noop, SchedulerCall.queue])).2
        [SchedulerCall.noop]) = (false, false) :=
  redraw_coalescing false
    [SchedulerCall.queue, SchedulerCall.noop, SchedulerCall.queue]
    [SchedulerCall.noop] (by decide) (by decide)

/-- C3: pointer motion emits nothing when the mouse is up or when the
converted position equals the previous one, and exactly one MouseDragged
carrying the new logical position when the mouse is down and the position
changed; the stored mouse position becomes the converted position in every
case. -/
theorem pointer_motion_events (convert : Int → Int → LogicalSize)
    (w : WindowState) (x y : Int) :
    (handle_pointer_motion convert w x y).2 =
      (if w.mouse_down = true ∧ w.mouse_position ≠ convert x y then
        [UiEvent.MouseDragged (convert x y).width (convert x y).height]
      else []) ∧
    (handle_pointer_motion convert w x y).1.mouse_position = convert x y := by
  by_cases h : w.mouse_down = true ∧ w.mouse_position ≠ convert x y <;>
    simp [handle_pointer_motion, h]

/-- C4: wheel decomposition. Membership of each direction in the emitted
list is equivalent to the sign condition of its axis, the number of
emissions is one per nonzero axis (two for a diagonal input, none for the
zero input), and every emission carries the current mouse position. -/
theorem wheel_characterization (w : WindowState) (x y : Int) :
    (UiEvent.Scroll Direction.Up w.mouse_position.width w.mouse_position.height ∈
        (handle_mouse_wheel w x y).2 ↔ 0 < y) ∧
    (UiEvent.Scroll Direction.Down w.mouse_position.width w.mouse_position.height ∈
        (handle_mouse_wheel w x y).2 ↔ y < 0) ∧
    (UiEvent.Scroll Direction.Right w.mouse_position.width w.mouse_position.height ∈
        (handle_mouse_wheel w x y).2 ↔ 0 < x) ∧
    (UiEvent.Scroll Direction.Left w.mouse_position.width w.mouse_position.height ∈
        (handle_mouse_wheel w x y).2 ↔ x < 0) ∧
    (handle_mouse_wheel w x y).2.length =
      ((if y = 0 then 0 else 1) + (if x = 0 then 0 else 1)) := by
  rw [handle_mouse_wheel_spec]
  rcases lt_trichotomy y 0 with hy | rfl | hy <;>
    rcases lt_trichotomy x 0 with hx | rfl | hx
  · simp [hy, hx, hy.ne, hx.ne, hy.not_lt, hx.not_lt]
  · simp [hy, hy.ne, hy.not_lt]
  · simp [hy, hx, hy.ne, hy.not_lt, hx.ne.symm, hx.not_lt]
  · simp [hx, hx.ne, hx.not_lt]
  · simp
  · simp [hx, hx.ne.symm, hx.not_lt]
  · simp [hy, hx, hy.ne.symm, hy.not_lt, hx.ne, hx.not_lt]
  · simp [hy, hy.ne.symm, hy.not_lt]
  · simp [hy, hx, hy.ne.symm, hy.not_lt, hx.ne.symm, hx.not_lt]

/-- C5 counterexample: at the diagonal wheel input x = -3, y = -2 the code
emits Scroll Down first and Scroll Left second, because the vertical axis is
evaluated before the horizontal one; the order Left then Down stated by the
claim does not occur. -/
theorem wheel_order_counterexample :
    (handle_mouse_wheel w0 (-3) (-2)).2 =
      [UiEvent.Scroll Direction.Down 0 0, UiEvent.Scroll Direction.Left 0 0] ∧
    (handle_mouse_wheel w0 (-3) (-2)).2 ≠
      [UiEvent.Scroll Direction.Left 0 0, UiEvent.Scroll Direction.Down 0 0] :=
  ⟨by decide, by decide⟩

/-- C5 amended: for every wheel input with dx < 0 and dy < 0 exactly two
events are emitted, Scroll Down at the current mouse position first and
Scroll Left second; the vertical axis is evaluated before the horizontal
one. -/
theorem wheel_diagonal_order (w : WindowState) (x y : Int)
    (hx : x < 0) (hy : y < 0) :
    (handle_mouse_wheel w x y).2 =
      [UiEvent.Scroll Direction.Down w.mouse_position.width w.mouse_position.height,
       UiEvent.Scroll Direction.Left w.mouse_position.width w.mouse_position.height] := by
  rw [handle_mouse_wheel_spec]
  simp [hx, hy, hx.not_lt, hy.not_lt]

/-- C5 witness at the concrete diagonal input of the claim. -/
theorem wheel_diagonal_order_witness :
    (handle_mouse_wheel w0 (-3) (-2)).2 =
      [UiEvent.Scroll Direction.Down 0 0, UiEvent.Scroll Direction.Left 0 0] :=
  wheel_diagonal_order w0 (-3) (-2) (by decide) (by decide)

/-- C6: in one frame iteration the buffered keycode and text pair is
dispatched through handle_keyboard_input exactly when no FocusGained window
event was drained in that same iteration. -/
theorem keyboard_dispatch_iff_no_focus_gained
    (convert : Int → Int → LogicalSize)
    (encode : Option Nat → Option String → Option String)
    (w : WindowState) (sched : Bool) (events : List RawEvent) :
    (frame_iteration convert encode w sched events).2.2 = true ↔
      RawEvent.WindowFocusGained ∉ events := by
  rw [frame_iteration_flag, process_batch_ignore]
  simp only [Bool.false_or, Bool.not_eq_true', List.any_eq_false]
  constructor
  · intro hall hm
    exact absurd (is_focus_gained_iff RawEvent.WindowFocusGained |>.mpr rfl)
      (hall _ hm)
  · intro hnm e he
    simp only [Bool.not_eq_true]
    cases hfg : is_focus_gained e with
    | false => rfl
    | true => exact absurd ((is_focus_gained_iff e).mp hfg ▸ he) hnm

/-- C7: with the target fixed at one 144th of a second, an iteration that
finishes early sleeps exactly the remainder, an iteration that meets or
exceeds the target does not sleep at all, and the sleep of a later frame
never depends on the elapsed time of an earlier one: there is no catchup
compensation between frames. -/
theorem frame_pacing (e : ℚ) :
    (e < frame_length → sleep_duration e = frame_length - e) ∧
    (frame_length ≤ e → sleep_duration e = 0) ∧
    (∀ e1 e2 rest, (pacing_schedule (e1 :: rest)).tail =
      (pacing_schedule (e2 :: rest)).tail) := by
  refine ⟨fun h => ?_, fun h => ?_, fun e1 e2 rest => ?_⟩
  · simp [sleep_duration, h]
  · simp [sleep_duration, not_lt.mpr h]
  · simp [pacing_schedule]

/-- C8 counterexample: exiting fullscreen while the set_size call fails does
not swallow the failure: the code calls unwrap on the set_size result and
panics, modelled as none, so the call aborts and the flag does not flip. -/
theorem toggle_fullscreen_panic_counterexample :
    toggle_fullscreen pb_size_fails w_fullscreen
      { size := (1920, 1080), position := (0, 0) } = none := by decide

/-- C8 amended: a failure of the set_fullscreen mode call while entering
fullscreen is swallowed: toggle_fullscreen returns normally, the window
geometry is left unchanged, and the fullscreen flag still flips; a failure
of the set_size call while exiting fullscreen is instead a panic through
unwrap, shown by the counterexample. -/
theorem toggle_fullscreen_swallows_mode_failure (pb : PlatformBehavior)
    (w : WindowState) (win : PlatformWindow)
    (hw : w.fullscreen = false) (hf : pb.setFullscreenOk = false) :
    toggle_fullscreen pb w win =
      some ({ w with cached_size := win.size, cached_position := win.position, fullscreen := true },
            win) := by
  simp [toggle_fullscreen, hw, hf]

/-- C8 witness at a concrete windowed state with the mode call failing. -/
theorem toggle_fullscreen_swallows_mode_failure_witness :
    toggle_fullscreen pb_mode_fails w0 win0 =
      some ({ w0 with cached_size := win0.size, cached_position := win0.position, fullscreen := true },
            win0) :=
  toggle_fullscreen_swallows_mode_failure pb_mode_fails w0 win0 rfl rfl

/-- C9: starting windowed with every platform call succeeding, two
successive toggles restore the window geometry exactly to the pre toggle
values, leave the cache holding that pre toggle geometry, and return the
fullscreen flag to false. -/
theorem toggle_fullscreen_roundtrip (pb : PlatformBehavior)
    (w : WindowState) (win : PlatformWindow)
    (hw : w.fullscreen = false) (hf : pb.setFullscreenOk = true)
    (hs : pb.setSizeOk = true) :
    (toggle_fullscreen pb w win).bind
        (fun p => toggle_fullscreen pb p.1 p.2) =
      some ({ w with cached_size := win.size, cached_position := win.position },
            win) := by
  simp [toggle_fullscreen, hw, hf, hs]

/-- C9 witness at a concrete windowed state and geometry. -/
theorem toggle_fullscreen_roundtrip_witness :
    (toggle_fullscreen pb_ok w0 win0).bind
        (fun p => toggle_fullscreen pb_ok p.1 p.2) =
      some ({ w0 with cached_size := win0.size, cached_position := win0.position },
            win0) :=
  toggle_fullscreen_roundtrip pb_ok w0 win0 rfl rfl rfl

/-- C10: handle_quit, handle_mouse_wheel, handle_focus_lost and
handle_focus_gained leave every field of the window state unchanged; their
only effects are the emitted events, and handle_focus_gained additionally
sets the scheduler pending flag to true. -/
theorem handlers_frame_effect (w : WindowState) (s : Bool) (x y : Int) :
    handle_quit w = (w, [UiEvent.Quit]) ∧
    (handle_mouse_wheel w x y).1 = w ∧
    handle_focus_lost w = (w, [UiEvent.FocusLost]) ∧
    (handle_focus_gained w s).1 = w ∧
    (handle_focus_gained w s).2.1 = true ∧
    (handle_focus_gained w s).2.2 = [UiEvent.FocusGained] :=
  ⟨rfl, rfl, rfl, rfl, rfl, rfl⟩
